import Mathlib

/-!
Shallow embedding of the gas-tank stamping text image generator
(`scripts/main.py`, `scripts/utils.py`, `scripts/cylinder_generator.py`,
`scripts/text_embosser.py`, `scripts/lighting_camera.py`).

Python's global `random` module is modelled as a deterministic stream of
variates in `[0, 1)` fixed by the seed, together with a cursor counting the
draws consumed so far (`random.seed(s)` makes the stream a function of `s`
alone, so "same seed" is embedded as "same stream").  Numeric values are
embedded as rationals, i.e. exact arithmetic.  Calls into the Blender API
(`bpy.*`) mutate only the scene graph; the random draws they interleave with
are modelled faithfully, one stream position per `random.*` call, in source
order.
-/

namespace GasTank

/-- Python exception values relevant to this codebase. -/
inductive PyExc where
  | fileNotFoundError (msg : String)
  | unicodeDecodeError (encoding object : String) (startPos endPos : Nat) (reason : String)
  | typeError (msg : String)
  | indexError (msg : String)
  deriving Repr, DecidableEq

/-- Whitespace characters recognised by Python's `str.strip()` (ASCII range). -/
def isPySpace (c : Char) : Bool :=
  c = ' ' || c = '\t' || c = '\n' || c = '\r' || c = '\x0b' || c = '\x0c'

/-- `line.strip()`: drop leading and trailing whitespace. -/
def pyStrip (s : String) : String :=
  ⟨((s.data.dropWhile isPySpace).reverse.dropWhile isPySpace).reverse⟩

/-- The line-processing loop of `load_text_dictionary` (utils.py lines 41-48):
strip every line, append the non-blank ones, in file order. -/
def load_text_dictionary (lines : List String) : List String :=
  lines.foldl (fun acc line =>
    let text := pyStrip line
    if text ≠ "" then acc ++ [text] else acc) []

/-- Outcome of opening and UTF-8-decoding a file. -/
inductive FileReadResult where
  | notFound
  | invalidUtf8
  | content (lines : List String)
  deriving Repr, DecidableEq

/-- CPython's `UnicodeDecodeError.__init__` requires exactly five arguments
(encoding, object, start, end, reason); `utils.py` line 52 constructs it with
a single string, so the construction itself raises `TypeError`. -/
def unicodeDecodeErrorOneArg (_msg : String) : PyExc :=
  .typeError "function takes exactly 5 arguments (1 given)"

/-- `load_text_dictionary` together with its exception behaviour
(utils.py lines 43-52). -/
def load_text_dictionary_from_file (filepath : String) (file : FileReadResult) :
    Except PyExc (List String) :=
  match file with
  | .notFound => .error (.fileNotFoundError ("Dictionary file not found: " ++ filepath))
  | .invalidUtf8 => .error (unicodeDecodeErrorOneArg ("Invalid UTF-8 encoding in file: " ++ filepath))
  | .content lines => .ok (load_text_dictionary lines)

/-- Does this outcome raise `FileNotFoundError`? -/
def isNotFoundResult {α : Type} : Except PyExc α → Bool
  | .error (.fileNotFoundError _) => true
  | _ => false

/-- Does this outcome raise `UnicodeDecodeError` (the "encoding error" of the spec)? -/
def isEncodingErrorResult {α : Type} : Except PyExc α → Bool
  | .error (.unicodeDecodeError ..) => true
  | _ => false

lemma load_text_dictionary_foldl (lines : List String) :
    ∀ acc : List String,
      lines.foldl (fun acc line =>
        let text := pyStrip line
        if text ≠ "" then acc ++ [text] else acc) acc =
      acc ++ (lines.map pyStrip).filter (fun t => t ≠ "") := by
  induction lines with
  | nil => intro acc; simp
  | cons l ls ih =>
      intro acc
      rw [List.foldl_cons, ih]
      by_cases h : pyStrip l = "" <;>
        simp [h, List.filter_cons, List.append_assoc]

lemma pyStrip_blank {l : String} (h : ∀ c ∈ l.data, isPySpace c = true) :
    pyStrip l = "" := by
  unfold pyStrip
  have h1 : l.data.dropWhile isPySpace = [] := by
    rw [List.dropWhile_eq_nil_iff]; exact h
  simp [h1]

/-- C4: for a readable, decodable dictionary file, `load_text_dictionary`
returns exactly the whitespace-trimmed contents of the non-blank lines, one
entry per such line, in original file order; a file whose lines are all blank
or whitespace-only yields the empty sequence. -/
theorem c4_load_dictionary_trims_and_filters (lines : List String) :
    load_text_dictionary lines = (lines.map pyStrip).filter (fun t => t ≠ "") ∧
    ((∀ l ∈ lines, ∀ c ∈ l.data, isPySpace c = true) → load_text_dictionary lines = []) := by
  have hmain : load_text_dictionary lines =
      (lines.map pyStrip).filter (fun t => t ≠ "") := by
    unfold load_text_dictionary
    simpa using load_text_dictionary_foldl lines []
  refine ⟨hmain, fun hblank => ?_⟩
  rw [hmain, List.filter_eq_nil_iff]
  intro t ht
  obtain ⟨l, hl, rfl⟩ := List.mem_map.mp ht
  simp [pyStrip_blank (hblank l hl)]

/-- Witness for C4 at a concrete file consisting only of blank lines. -/
theorem c4_witness : load_text_dictionary [" ", "\t\t", ""] = [] :=
  (c4_load_dictionary_trims_and_filters [" ", "\t\t", ""]).2 (by decide)

/-- C5: `load_text_dictionary` fails with `FileNotFoundError` exactly when the
path does not exist, and returns normally on decodable content; but on a file
that is not valid UTF-8 it does not fail with an encoding error: the handler's
one-argument `UnicodeDecodeError(...)` construction raises `TypeError`
(utils.py line 52), although the function's docstring promises
`UnicodeDecodeError`. -/
theorem c5_error_modes (filepath : String) (lines : List String) :
    load_text_dictionary_from_file filepath .notFound =
      .error (.fileNotFoundError ("Dictionary file not found: " ++ filepath)) ∧
    isNotFoundResult (load_text_dictionary_from_file filepath .notFound) = true ∧
    load_text_dictionary_from_file filepath .invalidUtf8 =
      .error (.typeError "function takes exactly 5 arguments (1 given)") ∧
    isEncodingErrorResult (load_text_dictionary_from_file filepath .invalidUtf8) = false ∧
    isNotFoundResult (load_text_dictionary_from_file filepath .invalidUtf8) = false ∧
    load_text_dictionary_from_file filepath (.content lines) =
      .ok (load_text_dictionary lines) :=
  ⟨rfl, rfl, rfl, rfl, rfl, rfl⟩

/-- State of Python's global `random` module: a deterministic stream of
variates in `[0, 1)` (fixed by the seed) and the cursor of draws consumed. -/
structure RandomState where
  stream : Nat → ℚ
  pos : Nat

/-- Every value the stream can produce lies in `[0, 1)`, as `random.random()`
guarantees. -/
def ValidStream (s : Nat → ℚ) : Prop := ∀ n, 0 ≤ s n ∧ s n < 1

/-- Consume one variate (`random.random()`). -/
def RandomState.next (st : RandomState) : ℚ × RandomState :=
  (st.stream st.pos, ⟨st.stream, st.pos + 1⟩)

/-- `random.uniform(a, b)`, i.e. `a + (b - a) * random.random()`. -/
def randomUniform (a b : ℚ) (st : RandomState) : ℚ × RandomState :=
  let (u, st') := st.next
  (a + (b - a) * u, st')

/-- `random.choice(seq)` on a statically non-empty sequence: one draw decides
a uniform index (each index corresponds to a `1/len` slice of the variate;
the `min` clamp is inert for valid streams). -/
def randomChoiceNE {α : Type} (seq : List α) (hne : seq ≠ []) (st : RandomState) :
    α × RandomState :=
  let (u, st') := st.next
  (seq.get ⟨min (Nat.floor (u * seq.length)) (seq.length - 1), by
      have h1 : 0 < seq.length := List.length_pos.mpr hne
      have h2 := Nat.min_le_right (Nat.floor (u * (seq.length : ℚ))) (seq.length - 1)
      omega⟩, st')

/-- `random.choice(seq)` in general: raises `IndexError` on an empty sequence
(no draw is consumed in that case). -/
def randomChoice {α : Type} (seq : List α) (st : RandomState) :
    Except PyExc (α × RandomState) :=
  match seq with
  | [] => .error (.indexError "Cannot choose from an empty sequence")
  | x :: xs => .ok (randomChoiceNE (x :: xs) (List.cons_ne_nil x xs) st)

/-- The four size classes of `CylinderGenerator.cylinder_configs`. -/
inductive SizeClass where
  | small
  | medium
  | large
  | industrial
  deriving Repr, DecidableEq

/-- One row of the `cylinder_configs` table. -/
structure CylinderConfig where
  height : ℚ
  radius : ℚ
  tankName : String
  deriving Repr, DecidableEq

/-- `self.cylinder_configs` (cylinder_generator.py lines 32-37). -/
def cylinder_configs (s : SizeClass) : CylinderConfig :=
  match s with
  | .small => ⟨2, 6/10, "Small Tank"⟩
  | .medium => ⟨3, 8/10, "Medium Tank"⟩
  | .large => ⟨4, 1, "Large Tank"⟩
  | .industrial => ⟨5, 12/10, "Industrial Tank"⟩

/-- `list(self.cylinder_configs.keys())`, in dict insertion order. -/
def sizeClassList : List SizeClass := [.small, .medium, .large, .industrial]

/-- Shape parameters of the generated cylinder object. -/
structure CylinderSpec where
  sizeType : SizeClass
  height : ℚ
  radius : ℚ
  deriving Repr, DecidableEq

/-- `custom_height if custom_height else config['height']`
(cylinder_generator.py lines 73-74): a `0.0` override is falsy in Python and
is therefore ignored in favour of the table value. -/
def resolveDim (custom : Option ℚ) (tableVal : ℚ) : ℚ :=
  match custom with
  | some v => if v ≠ 0 then v else tableVal
  | none => tableVal

/-- Resulting spec for a chosen size class and the two optional overrides. -/
def mkSpec (s : SizeClass) (customHeight customRadius : Option ℚ) : CylinderSpec :=
  let config := cylinder_configs s
  ⟨s, resolveDim customHeight config.height, resolveDim customRadius config.radius⟩

/-- `CylinderGenerator.create_cylinder` parameter logic
(cylinder_generator.py lines 66-74).  With `size_type = None` one draw picks a
class from `cylinder_configs.keys()`; the material and mesh construction that
follows consumes no further draws. -/
def create_cylinder (sizeType : Option SizeClass) (customHeight customRadius : Option ℚ)
    (st : RandomState) : CylinderSpec × RandomState :=
  match sizeType with
  | none =>
      let (s, st') := randomChoiceNE sizeClassList (by decide) st
      (mkSpec s customHeight customRadius, st')
  | some s => (mkSpec s customHeight customRadius, st)

/-- C8, counterexample to the claim as stated: a height override that is
present but equal to `0.0` is falsy in Python, so `create_cylinder` ignores it
and uses the table height `2.0` of the `small` class instead of the override. -/
theorem c8_counterexample :
    (create_cylinder (some .small) (some 0) none ⟨fun _ => 0, 0⟩).1.height = 2 ∧
    (create_cylinder (some .small) (some 0) none ⟨fun _ => 0, 0⟩).1.height ≠ 0 := by
  constructor <;> norm_num [create_cylinder, mkSpec, resolveDim, cylinder_configs]

/-- C8, amended: the canonical table is `(2.0, 0.6)`, `(3.0, 0.8)`,
`(4.0, 1.0)`, `(5.0, 1.2)` for small/medium/large/industrial; with no size
class, one uniform draw selects among exactly these four classes, each on a
slice of length `1/4` of the unit interval; an override that is present and
non-zero replaces the table value, while an absent override (and, by Python
truthiness, a zero override) leaves the table value in place. -/
theorem c8_size_table_and_overrides (customHeight customRadius : Option ℚ)
    (st : RandomState) :
    (cylinder_configs .small).height = 2 ∧ (cylinder_configs .small).radius = 6/10 ∧
    (cylinder_configs .medium).height = 3 ∧ (cylinder_configs .medium).radius = 8/10 ∧
    (cylinder_configs .large).height = 4 ∧ (cylinder_configs .large).radius = 1 ∧
    (cylinder_configs .industrial).height = 5 ∧ (cylinder_configs .industrial).radius = 12/10 ∧
    (∀ j : Fin 4, (j : ℚ)/4 ≤ st.stream st.pos → st.stream st.pos < ((j : ℚ) + 1)/4 →
      create_cylinder none customHeight customRadius st =
        (mkSpec (sizeClassList.get ⟨j, j.isLt⟩) customHeight customRadius,
         ⟨st.stream, st.pos + 1⟩)) ∧
    (∀ s v, v ≠ 0 →
      (create_cylinder (some s) (some v) customRadius st).1.height = v) ∧
    (∀ s v, v ≠ 0 →
      (create_cylinder (some s) customHeight (some v) st).1.radius = v) ∧
    (∀ s, (create_cylinder (some s) none none st).1.height = (cylinder_configs s).height ∧
          (create_cylinder (some s) none none st).1.radius = (cylinder_configs s).radius) := by
  refine ⟨rfl, rfl, rfl, rfl, rfl, rfl, rfl, rfl, ?_, ?_, ?_, ?_⟩
  · intro j hlo hhi
    have hu0 : 0 ≤ st.stream st.pos := le_trans (by positivity) hlo
    have hfloor : Nat.floor (st.stream st.pos * (4 : ℚ)) = (j : Nat) := by
      rw [Nat.floor_eq_iff (mul_nonneg hu0 (by norm_num))]
      constructor
      · calc ((j : Nat) : ℚ) = (j : ℚ) := by ring
          _ = ((j : ℚ)/4) * 4 := by ring
          _ ≤ st.stream st.pos * 4 := by
              have := mul_le_mul_of_nonneg_right hlo (by norm_num : (0:ℚ) ≤ 4)
              linarith
      · calc st.stream st.pos * 4 < (((j : ℚ) + 1)/4) * 4 := by
              have := mul_lt_mul_of_pos_right hhi (by norm_num : (0:ℚ) < 4)
              linarith
          _ = ((j : Nat) : ℚ) + 1 := by ring
    unfold create_cylinder randomChoiceNE RandomState.next
    have hlen : ((sizeClassList.length : ℚ)) = 4 := by decide
    have hmin : min (Nat.floor (st.stream st.pos * (sizeClassList.length : ℚ)))
        (sizeClassList.length - 1) = (j : Nat) := by
      rw [hlen, hfloor]
      have : (j : Nat) ≤ 3 := by omega
      simp [sizeClassList]
      omega
    simp only [hmin]
  · intro s v hv
    simp [create_cylinder, mkSpec, resolveDim, hv]
  · intro s v hv
    simp [create_cylinder, mkSpec, resolveDim, hv]
  · intro s
    simp [create_cylinder, mkSpec, resolveDim]

/-- Witness for C8 at a concrete draw (`u = 0`, selecting `small`) and a
concrete non-zero height override. -/
theorem c8_witness :
    create_cylinder none (some 7) none ⟨fun _ => 0, 0⟩ =
      (mkSpec .small (some 7) none, ⟨fun _ => (0 : ℚ), 1⟩) ∧
    (create_cylinder (some .medium) (some 7) none ⟨fun _ => 0, 0⟩).1.height = 7 := by
  obtain ⟨-, -, -, -, -, -, -, -, hu, hov, -, -⟩ :=
    c8_size_table_and_overrides (some 7) none ⟨fun _ => (0 : ℚ), 0⟩
  exact ⟨by simpa using hu 0 (by norm_num) (by norm_num), hov .medium 7 (by norm_num)⟩

/-- Spatial data computed by `_position_text_on_cylinder`. -/
structure TextPosition where
  positionHeight : ℚ
  azimuthAngle : ℚ
  xOffset : ℚ
  deriving Repr, DecidableEq

/-- The literal `2 * 3.14159` of text_embosser.py line 204. -/
def pyTwoPi : ℚ := 2 * (314159/100000)

/-- `TextEmbosser._position_text_on_cylinder` (text_embosser.py lines
193-219): an optional explicit height, otherwise one uniform draw from
`[margin, height - margin]` with `margin = height * 0.2`; then the (unused)
azimuth draw and the front/back side choice. -/
def position_text_on_cylinder (cylinderRadius cylinderHeight : ℚ)
    (positionHeight? : Option ℚ) (st : RandomState) : TextPosition × RandomState :=
  let (h, st) :=
    match positionHeight? with
    | some h => (h, st)
    | none =>
        let margin := cylinderHeight * (2/10)
        randomUniform margin (cylinderHeight - margin) st
  let (az, st) := randomUniform 0 pyTwoPi st
  let offsetDistance := cylinderRadius + 1/100
  let (side, st) := randomChoiceNE [(1 : ℚ), -1] (by decide) st
  (⟨h, az, offsetDistance * side⟩, st)

/-- `TextEmbosser._create_text_object` (text_embosser.py lines 136-165): pick
a font (one draw when any fonts were discovered, none otherwise), then one
text-size draw from `[0.15, 0.25]`. -/
def create_text_object (fonts : List String) (st : RandomState) :
    (Option String × ℚ) × RandomState :=
  let (font, st) :=
    match fonts with
    | [] => (none, st)
    | f :: fs =>
        let (x, st') := randomChoiceNE (f :: fs) (List.cons_ne_nil f fs) st
        (some x, st')
  let (size, st) := randomUniform (15/100) (25/100) st
  ((font, size), st)

/-- `TextEmbosser._convert_text_to_mesh` (lines 223-255): one deboss-depth
draw from `[0.001, 0.005]`. -/
def convert_text_to_mesh (st : RandomState) : ℚ × RandomState :=
  randomUniform (1/1000) (5/1000) st

/-- The `TextPlacement` of the spec: everything randomized for one stamping. -/
structure TextPlacement where
  text : String
  font : Option String
  size : ℚ
  position : TextPosition
  debossDepth : ℚ
  deriving Repr, DecidableEq

/-- `TextEmbosser.apply_debossed_text` (lines 90-123): create the text object,
position it on the cylinder, convert it to a mesh with a deboss depth; the
boolean subtraction itself is host-engine work and consumes no draws. -/
def apply_debossed_text (fonts : List String) (cylinder : CylinderSpec)
    (textContent : String) (positionHeight? : Option ℚ) (st : RandomState) :
    TextPlacement × RandomState :=
  let ((font, size), st) := create_text_object fonts st
  let (p, st) := position_text_on_cylinder cylinder.radius cylinder.height positionHeight? st
  let (depth, st) := convert_text_to_mesh st
  (⟨textContent, font, size, p, depth⟩, st)

/-- C7, counterexample to the claim as stated: with cylinder height `2.0` and
the draw `u = 0` (a value `random.random()` can return), the chosen height is
exactly `2.0 * 0.2 = 0.4`, the lower endpoint of the band — not strictly
inside the open interval. -/
theorem c7_counterexample :
    (position_text_on_cylinder 1 2 none ⟨fun _ => 0, 0⟩).1.positionHeight = 2/5 ∧
    ¬ (2 * (2/10) <
        (position_text_on_cylinder 1 2 none ⟨fun _ => 0, 0⟩).1.positionHeight) := by
  constructor <;>
    norm_num [position_text_on_cylinder, randomUniform, randomChoiceNE,
      RandomState.next, pyTwoPi]

/-- C7, amended: for every cylinder of positive height `h` and all valid
random draws, the height chosen by `_position_text_on_cylinder` (when none is
supplied) lies in the half-open interval from `h * margin` (inclusive) to
`h * (1 - margin)` (exclusive), with `margin = 0.2`. -/
theorem c7_height_in_band (r h : ℚ) (st : RandomState)
    (hs : ValidStream st.stream) (hh : 0 < h) :
    h * (2/10) ≤ (position_text_on_cylinder r h none st).1.positionHeight ∧
    (position_text_on_cylinder r h none st).1.positionHeight < h * (1 - 2/10) := by
  obtain ⟨h0, h1⟩ := hs st.pos
  have hexpr : (position_text_on_cylinder r h none st).1.positionHeight =
      h * (2/10) + ((h - h * (2/10)) - h * (2/10)) * st.stream st.pos := rfl
  rw [hexpr]
  constructor
  · nlinarith
  · nlinarith

/-- Witness for C7 at radius `1`, height `2`, constant draw `1/2`. -/
theorem c7_witness :
    (2 : ℚ) * (2/10) ≤
      (position_text_on_cylinder 1 2 none ⟨fun _ => 1/2, 0⟩).1.positionHeight ∧
    (position_text_on_cylinder 1 2 none ⟨fun _ => 1/2, 0⟩).1.positionHeight <
      2 * (1 - 2/10) :=
  c7_height_in_band 1 2 ⟨fun _ => 1/2, 0⟩ (fun n => by norm_num) (by norm_num)

/-- The randomized camera parameters (angles in degrees as drawn). -/
structure CameraSetup where
  distance : ℚ
  elevationDeg : ℚ
  azimuthDeg : ℚ
  lens : ℚ
  deriving Repr, DecidableEq

/-- `LightingCameraController.setup_camera` (lighting_camera.py lines 53-97):
distance, elevation, azimuth, then focal length. -/
def setup_camera (st : RandomState) : CameraSetup × RandomState :=
  let (d, st) := randomUniform 3 6 st
  let (e, st) := randomUniform (-30) 30 st
  let (a, st) := randomUniform 0 360 st
  let (l, st) := randomUniform 35 85 st
  (⟨d, e, a, l⟩, st)

/-- The key light's randomized parameters. -/
structure KeyLight where
  intensity : ℚ
  elevationDeg : ℚ
  azimuthDeg : ℚ
  colorTemp : ℚ
  deriving Repr, DecidableEq

/-- `_create_key_light` (lighting_camera.py lines 129-169): intensity from
`[300, 800]`, elevation from `[30, 70]` degrees, azimuth from `[0, 360]`
degrees, then the colour temperature from `[0.8, 1.2]`. -/
def create_key_light (st : RandomState) : KeyLight × RandomState :=
  let (i, st) := randomUniform 300 800 st
  let (e, st) := randomUniform 30 70 st
  let (a, st) := randomUniform 0 360 st
  let (c, st) := randomUniform (8/10) (12/10) st
  (⟨i, e, a, c⟩, st)

/-- The fill light's randomized parameters. -/
structure FillLight where
  intensity : ℚ
  size : ℚ
  elevationDeg : ℚ
  azimuthDeg : ℚ
  distance : ℚ
  deriving Repr, DecidableEq

/-- `_create_fill_light` (lighting_camera.py lines 171-209): intensity, size,
elevation, then the azimuth drawn from the fixed range `[120, 240]` degrees —
independent of the key light's azimuth — and the distance. -/
def create_fill_light (st : RandomState) : FillLight × RandomState :=
  let (i, st) := randomUniform 150 400 st
  let (s, st) := randomUniform 2 4 st
  let (e, st) := randomUniform 10 40 st
  let (a, st) := randomUniform 120 240 st
  let (d, st) := randomUniform 4 7 st
  (⟨i, s, e, a, d⟩, st)

/-- The rim light's randomized parameters. -/
structure RimLight where
  intensity : ℚ
  elevationDeg : ℚ
  azimuthDeg : ℚ
  distance : ℚ
  deriving Repr, DecidableEq

/-- `_create_rim_light` (lighting_camera.py lines 211-250). -/
def create_rim_light (st : RandomState) : RimLight × RandomState :=
  let (i, st) := randomUniform 200 600 st
  let (e, st) := randomUniform 45 80 st
  let (a, st) := randomUniform 180 360 st
  let (d, st) := randomUniform 3 5 st
  (⟨i, e, a, d⟩, st)

/-- The light rig of one scene (the ambient light has fixed parameters). -/
structure SceneLighting where
  key : KeyLight
  fill : FillLight
  rim : RimLight
  deriving Repr, DecidableEq

/-- `setup_lighting` (lighting_camera.py lines 99-118): the environment and
ambient lights consume no draws; key, fill and rim are created in this order. -/
def setup_lighting (st : RandomState) : SceneLighting × RandomState :=
  let (k, st) := create_key_light st
  let (f, st) := create_fill_light st
  let (r, st) := create_rim_light st
  (⟨k, f, r⟩, st)

/-- Camera plus light rig of one scene. -/
structure SceneSetup where
  camera : CameraSetup
  lighting : SceneLighting
  deriving Repr, DecidableEq

/-- `randomize_scene` (lighting_camera.py lines 43-51): camera, then lighting. -/
def randomize_scene (st : RandomState) : SceneSetup × RandomState :=
  let (c, st) := setup_camera st
  let (l, st) := setup_lighting st
  (⟨c, l⟩, st)

/-- The fill azimuth lies in the half-circle opposite the key azimuth: within
90 degrees of `key + 180`, modulo 360. -/
def OppositeHalf (keyDeg fillDeg : ℚ) : Prop :=
  ∃ k : ℤ, |fillDeg - (keyDeg + 180) - 360 * k| ≤ 90

/-- Stream exhibiting the C3 failure: the key-azimuth draw (stream position 2)
is `5/9`, giving 200 degrees; every other draw is `0`, so the fill azimuth is
120 degrees. -/
def c3Stream : Nat → ℚ := fun n => if n = 2 then 5/9 else 0

/-- C3: the code draws the fill azimuth from the fixed interval `[120, 240]`
degrees with no dependence on the key light (even though its own comment reads
"Position fill light opposite to key light"), so the key at azimuth 200
degrees with the fill at 120 degrees — both legal draws — leaves the fill 100
degrees away from the point opposite the key, outside the claimed
half-circle. -/
theorem c3_fill_not_opposite_key :
    ValidStream c3Stream ∧
    (setup_lighting ⟨c3Stream, 0⟩).1.key.azimuthDeg = 200 ∧
    (setup_lighting ⟨c3Stream, 0⟩).1.fill.azimuthDeg = 120 ∧
    ¬ OppositeHalf (setup_lighting ⟨c3Stream, 0⟩).1.key.azimuthDeg
        (setup_lighting ⟨c3Stream, 0⟩).1.fill.azimuthDeg := by
  have hkey : (setup_lighting ⟨c3Stream, 0⟩).1.key.azimuthDeg = 200 := by
    norm_num [setup_lighting, create_key_light, create_fill_light, create_rim_light,
      randomUniform, RandomState.next, c3Stream]
  have hfill : (setup_lighting ⟨c3Stream, 0⟩).1.fill.azimuthDeg = 120 := by
    norm_num [setup_lighting, create_key_light, create_fill_light, create_rim_light,
      randomUniform, RandomState.next, c3Stream]
  refine ⟨fun n => by dsimp [c3Stream]; split <;> norm_num, hkey, hfill, ?_⟩
  rw [hkey, hfill]
  rintro ⟨k, hk⟩
  rw [abs_le] at hk
  obtain ⟨hk1, hk2⟩ := hk
  have h1 : (360 : ℚ) * k ≤ -170 := by linarith
  have h2 : (-350 : ℚ) ≤ 360 * k := by linarith
  have hkneg : (k : ℚ) < 0 := by linarith
  have hk0 : k < 0 := by exact_mod_cast hkneg
  have hkle : k ≤ -1 := by omega
  have hcast : (k : ℚ) ≤ -1 := by exact_mod_cast hkle
  linarith

/-- The character of one decimal digit. -/
def digitChar (d : Nat) : Char := Char.ofNat (48 + d)

/-- Decimal representation of `n`, most significant digit first (`str(n)`). -/
def decimalRepr (n : Nat) : List Char :=
  if n = 0 then ['0'] else ((Nat.digits 10 n).map digitChar).reverse

/-- Python's format `"{n:03d}"` for a natural number: the decimal digits,
left-padded with zeros to width 3. -/
def format03 (n : Nat) : String :=
  ⟨List.replicate (3 - (decimalRepr n).length) '0' ++ decimalRepr n⟩

/-- Numeric value of one digit character. -/
def charToDigit (c : Char) : Nat := c.toNat - 48

/-- Parse a digit string, most significant digit first (leading zeros allowed). -/
def natOfDigitChars (l : List Char) : Nat :=
  l.foldl (fun acc c => 10 * acc + charToDigit c) 0

lemma charToDigit_digitChar {d : Nat} (hd : d < 10) : charToDigit (digitChar d) = d := by
  interval_cases d <;> rfl

lemma natOfDigitChars_replicate (k : Nat) (l : List Char) :
    natOfDigitChars (List.replicate k '0' ++ l) = natOfDigitChars l := by
  induction k with
  | zero => rfl
  | succ k ih =>
      rw [List.replicate_succ, List.cons_append]
      show natOfDigitChars (List.replicate k '0' ++ l) = _
      exact ih

lemma natOfDigitChars_rev_digits (dl : List Nat) (h : ∀ d ∈ dl, d < 10) :
    natOfDigitChars ((dl.map digitChar).reverse) = Nat.ofDigits 10 dl := by
  induction dl with
  | nil => rfl
  | cons d dl ih =>
      have hd : d < 10 := h d (List.mem_cons_self d dl)
      have htail : ∀ x ∈ dl, x < 10 := fun x hx => h x (List.mem_cons_of_mem d hx)
      rw [List.map_cons, List.reverse_cons]
      unfold natOfDigitChars
      rw [List.foldl_append]
      have hih := ih htail
      unfold natOfDigitChars at hih
      rw [hih, Nat.ofDigits_cons]
      simp [List.foldl_cons, charToDigit_digitChar hd]
      ring

lemma natOfDigitChars_decimalRepr (n : Nat) : natOfDigitChars (decimalRepr n) = n := by
  unfold decimalRepr
  by_cases h : n = 0
  · subst h; rfl
  · rw [if_neg h,
      natOfDigitChars_rev_digits _ (fun d hd => Nat.digits_lt_base (by norm_num) hd),
      Nat.ofDigits_digits]

lemma natOfDigitChars_format03 (n : Nat) : natOfDigitChars (format03 n).data = n := by
  show natOfDigitChars (List.replicate _ '0' ++ decimalRepr n) = n
  rw [natOfDigitChars_replicate, natOfDigitChars_decimalRepr]

lemma format03_inj {n1 n2 : Nat} (h : (format03 n1).data = (format03 n2).data) :
    n1 = n2 := by
  have h2 := congrArg natOfDigitChars h
  rwa [natOfDigitChars_format03, natOfDigitChars_format03] at h2

lemma digitChar_isDigit {d : Nat} (hd : d < 10) : (digitChar d).isDigit = true := by
  interval_cases d <;> decide

lemma format03_all_digits (n : Nat) : ∀ c ∈ (format03 n).data, c.isDigit = true := by
  intro c hc
  have hmem : c ∈ List.replicate (3 - (decimalRepr n).length) '0' ++ decimalRepr n := hc
  rcases List.mem_append.mp hmem with h | h
  · rw [List.eq_of_mem_replicate h]; decide
  · unfold decimalRepr at h
    by_cases hn : n = 0
    · rw [if_pos hn] at h
      simp only [List.mem_singleton] at h
      rw [h]; decide
    · rw [if_neg hn, List.mem_reverse] at h
      obtain ⟨d, hd, rfl⟩ := List.mem_map.mp h
      exact digitChar_isDigit (Nat.digits_lt_base (by norm_num) hd)

lemma takeWhile_all_append {α : Type} (p : α → Bool) :
    ∀ (a : List α), (∀ x ∈ a, p x = true) → ∀ (y : α) (b : List α), p y = false →
      (a ++ y :: b).takeWhile p = a := by
  intro a
  induction a with
  | nil => intro _ y b hy; simp [List.takeWhile_cons, hy]
  | cons x xs ih =>
      intro h y b hy
      have hx : p x = true := h x (List.mem_cons_self x xs)
      simp [List.takeWhile_cons, hx,
        ih (fun z hz => h z (List.mem_cons_of_mem x hz)) y b hy]

lemma digits_underscore_split {a1 a2 b1 b2 : List Char}
    (h1 : ∀ c ∈ a1, c.isDigit = true) (h2 : ∀ c ∈ a2, c.isDigit = true)
    (h : a1 ++ '_' :: b1 = a2 ++ '_' :: b2) : a1 = a2 := by
  have e1 : (a1 ++ '_' :: b1).takeWhile Char.isDigit = a1 :=
    takeWhile_all_append _ a1 h1 '_' b1 (by decide)
  have e2 : (a2 ++ '_' :: b2).takeWhile Char.isDigit = a2 :=
    takeWhile_all_append _ a2 h2 '_' b2 (by decide)
  rw [← e1, ← e2, h]

/-- `os.path.join(a, b)` for a relative second component. -/
def ospathJoin (a b : String) : String :=
  if a = "" then b
  else if a.endsWith "/" then a ++ b
  else a ++ "/" ++ b

/-- The characters `os.path.join(a, b)` places before `b`. -/
def joinLead (a : String) : List Char :=
  if a = "" then []
  else if a.endsWith "/" then a.data
  else a.data ++ ['/']

lemma string_data_append (s t : String) : (s ++ t).data = s.data ++ t.data := rfl

lemma ospathJoin_data (a b : String) : (ospathJoin a b).data = joinLead a ++ b.data := by
  unfold ospathJoin joinLead
  split
  · simp
  · split <;> simp [string_data_append]

/-- The file name `f"{label}_{variant_id}{ext}"` built by the loop body. -/
def sampleName (label : String) (n : Nat) (ext : String) : String :=
  label ++ "_" ++ format03 n ++ ext

/-- The rendered image path of (1-based) iteration `n`:
`os.path.join(output, 'images', f"{label}_{n:03d}.png")`. -/
def imgPath (out label : String) (n : Nat) : String :=
  ospathJoin (ospathJoin out "images") (sampleName label n ".png")

/-- The ground-truth label path of (1-based) iteration `n`:
`os.path.join(output, 'labels', f"{label}_{n:03d}.txt")`. -/
def lblPath (out label : String) (n : Nat) : String :=
  ospathJoin (ospathJoin out "labels") (sampleName label n ".txt")

lemma sampleName_data (label : String) (n : Nat) (ext : String) :
    (sampleName label n ext).data =
      label.data ++ '_' :: ((format03 n).data ++ ext.data) := by
  have h : ("_" : String).data = ['_'] := rfl
  simp [sampleName, string_data_append, h, List.append_assoc]

lemma sampleName_data_inj_idx {l1 l2 : String} {n1 n2 : Nat} {ext : String}
    (h : (sampleName l1 n1 ext).data = (sampleName l2 n2 ext).data) : n1 = n2 := by
  rw [sampleName_data, sampleName_data] at h
  have hrev := congrArg List.reverse h
  simp only [List.reverse_append, List.reverse_cons, List.append_assoc,
    List.singleton_append] at hrev
  have hcut := List.append_cancel_left hrev
  have hsplit : (format03 n1).data.reverse = (format03 n2).data.reverse :=
    digits_underscore_split
      (fun c hc => format03_all_digits n1 c (List.mem_reverse.mp hc))
      (fun c hc => format03_all_digits n2 c (List.mem_reverse.mp hc)) hcut
  exact format03_inj (List.reverse_injective hsplit)

lemma imgPath_inj_idx {out l1 l2 : String} {n1 n2 : Nat}
    (h : imgPath out l1 n1 = imgPath out l2 n2) : n1 = n2 := by
  have hd := congrArg String.data h
  rw [imgPath, imgPath, ospathJoin_data, ospathJoin_data] at hd
  exact sampleName_data_inj_idx (List.append_cancel_left hd)

lemma lblPath_inj_idx {out l1 l2 : String} {n1 n2 : Nat}
    (h : lblPath out l1 n1 = lblPath out l2 n2) : n1 = n2 := by
  have hd := congrArg String.data h
  rw [lblPath, lblPath, ospathJoin_data, ospathJoin_data] at hd
  exact sampleName_data_inj_idx (List.append_cancel_left hd)

lemma append_png_ne_txt (A B : List Char) :
    A ++ ('.' :: 'p' :: 'n' :: 'g' :: []) ≠ B ++ ('.' :: 't' :: 'x' :: 't' :: []) := by
  intro h
  have hrev := congrArg List.reverse h
  simp only [List.reverse_append, List.reverse_cons, List.reverse_nil,
    List.nil_append, List.append_assoc, List.singleton_append, List.cons_append,
    List.cons.injEq] at hrev
  exact absurd hrev.1 (by decide)

lemma imgPath_data_shape (out l : String) (n : Nat) :
    (imgPath out l n).data =
      (joinLead (ospathJoin out "images") ++ l.data ++ '_' :: (format03 n).data) ++
        ('.' :: 'p' :: 'n' :: 'g' :: []) := by
  have hpng : (".png" : String).data = ['.', 'p', 'n', 'g'] := rfl
  rw [imgPath, ospathJoin_data, sampleName_data, hpng]
  simp [List.append_assoc]

lemma lblPath_data_shape (out l : String) (n : Nat) :
    (lblPath out l n).data =
      (joinLead (ospathJoin out "labels") ++ l.data ++ '_' :: (format03 n).data) ++
        ('.' :: 't' :: 'x' :: 't' :: []) := by
  have htxt : (".txt" : String).data = ['.', 't', 'x', 't'] := rfl
  rw [lblPath, ospathJoin_data, sampleName_data, htxt]
  simp [List.append_assoc]

lemma imgPath_ne_lblPath (out1 out2 l1 l2 : String) (n1 n2 : Nat) :
    imgPath out1 l1 n1 ≠ lblPath out2 l2 n2 := by
  intro h
  have hd := congrArg String.data h
  rw [imgPath_data_shape, lblPath_data_shape] at hd
  exact append_png_ne_txt _ _ hd

/-- Outcome of the external (Blender / OS) work of one iteration: either the
scene operations, render and file writes all succeed, or some call raises an
exception, or a `KeyboardInterrupt` arrives. -/
inductive IterEvent where
  | ok
  | raiseExc (e : PyExc)
  | interrupt
  deriving Repr, DecidableEq

/-- One file creation performed by the loop body. -/
inductive FileWrite where
  | imagePng (path : String)
  | labelTxt (path : String) (content : String)
  deriving Repr, DecidableEq

/-- The path a write goes to. -/
def FileWrite.path : FileWrite → String
  | .imagePng p => p
  | .labelTxt p _ => p

/-- Is this write a rendered image? -/
def FileWrite.isImage : FileWrite → Bool
  | .imagePng _ => true
  | _ => false

/-- Is this write a ground-truth label file? -/
def FileWrite.isLabel : FileWrite → Bool
  | .labelTxt _ _ => true
  | _ => false

/-- How `main` terminates. -/
inductive RunExit where
  | completed (generatedCount : Nat)
  | configAbort
  | uncaught (e : PyExc)
  deriving Repr, DecidableEq

/-- Observable result of a run: the exit mode, whether `create_output_dirs`
ran (it creates both `images/` and `labels/`), and the files written, in
order. -/
structure RunResult where
  exit : RunExit
  dirsCreated : Bool
  files : List FileWrite
  deriving Repr, DecidableEq

/-- The CLI configuration surface of `main` relevant to the claims. -/
structure Args where
  count : Nat
  dict : String
  output : String
  deriving Repr, DecidableEq

/-- External environment of a run: the dictionary file's state, the fonts
found by `TextEmbosser._load_available_fonts`, and the per-iteration outcome
of the external render / write work. -/
structure Env where
  dictFile : FileReadResult
  fonts : List String
  events : Nat → IterEvent

/-- Why the generation loop stopped early. -/
inductive LoopStop where
  | exc (e : PyExc)
  | interrupted
  deriving Repr, DecidableEq

/-- One pass of the loop body (main.py lines 156-190): draw the label, build
the cylinder (drawing its size class), deboss the text, randomize the scene,
then — when the external work succeeds — write the image and the label file,
the latter containing exactly the chosen text (`f.write(text_content)`,
UTF-8, no trailing newline). -/
def runIteration (fonts : List String) (out : String) (textList : List String)
    (i : Nat) (ev : IterEvent) (st : RandomState) :
    Except LoopStop (List FileWrite × RandomState) :=
  match randomChoice textList st with
  | .error e => .error (.exc e)
  | .ok (textContent, st) =>
    let (cyl, st) := create_cylinder none none none st
    let (_tp, st) := apply_debossed_text fonts cyl textContent none st
    let (_sc, st) := randomize_scene st
    match ev with
    | .raiseExc e => .error (.exc e)
    | .interrupt => .error .interrupted
    | .ok =>
      .ok ([.imagePng (imgPath out textContent (i+1)),
            .labelTxt (lblPath out textContent (i+1)) textContent], st)

/-- The `for i in range(args.count)` loop with its `KeyboardInterrupt` and
`Exception` handling (main.py lines 153-199): `remaining` iterations left,
`i` the 0-based index of the next one, `g` the `generated_count` so far.
An exception propagates (`raise`); an interrupt ends the loop quietly. -/
def runLoop (fonts : List String) (out : String) (textList : List String)
    (events : Nat → IterEvent) :
    Nat → Nat → Nat → RandomState → RunExit × List FileWrite
  | 0, _, g, _ => (.completed g, [])
  | r + 1, i, g, st =>
    match runIteration fonts out textList i (events i) st with
    | .error (.exc e) => (.uncaught e, [])
    | .error .interrupted => (.completed g, [])
    | .ok (ws, st') =>
      let (ex, rest) := runLoop fonts out textList events r (i+1) (g+1) st'
      (ex, ws ++ rest)

/-- `main` (main.py lines 108-203): validate the dictionary path
(`sys.exit(1)` on a missing one — the `ConfigError` abort of the spec), load
the dictionary, create the output directories, then run the loop. -/
def main (args : Args) (env : Env) (st : RandomState) : RunResult :=
  match env.dictFile with
  | .notFound => ⟨.configAbort, false, []⟩
  | f =>
    match load_text_dictionary_from_file args.dict f with
    | .error e => ⟨.uncaught e, false, []⟩
    | .ok textList =>
      let (ex, files) := runLoop env.fonts args.output textList env.events args.count 0 0 st
      ⟨ex, true, files⟩

lemma runIteration_ok (fonts : List String) (out : String) (textList : List String)
    (hne : textList ≠ []) (i : Nat) (st : RandomState) :
    ∃ l ∈ textList, ∃ st',
      runIteration fonts out textList i .ok st =
        .ok ([.imagePng (imgPath out l (i+1)),
              .labelTxt (lblPath out l (i+1)) l], st') := by
  obtain ⟨x, xs, rfl⟩ := List.exists_cons_of_ne_nil hne
  refine ⟨_, List.get_mem _ _ _, _, rfl⟩

lemma runIteration_raise (fonts : List String) (out : String) (textList : List String)
    (hne : textList ≠ []) (i : Nat) (st : RandomState) (e : PyExc) :
    runIteration fonts out textList i (.raiseExc e) st = .error (.exc e) := by
  obtain ⟨x, xs, rfl⟩ := List.exists_cons_of_ne_nil hne
  rfl

lemma runIteration_interrupt (fonts : List String) (out : String)
    (textList : List String) (hne : textList ≠ []) (i : Nat) (st : RandomState) :
    runIteration fonts out textList i .interrupt st = .error .interrupted := by
  obtain ⟨x, xs, rfl⟩ := List.exists_cons_of_ne_nil hne
  rfl

lemma runLoop_ok_spec (fonts : List String) (out : String) (textList : List String)
    (events : Nat → IterEvent) (hne : textList ≠ []) (hev : ∀ k, events k = .ok) :
    ∀ (r i g : Nat) (st : RandomState),
      ∃ ws : List FileWrite,
        runLoop fonts out textList events r i g st = (.completed (g + r), ws) ∧
        ws.length = 2 * r ∧
        (ws.filter FileWrite.isImage).length = r ∧
        (ws.filter FileWrite.isLabel).length = r ∧
        ∀ j < r, ∃ l ∈ textList,
          ws.get? (2*j) = some (.imagePng (imgPath out l (i+j+1))) ∧
          ws.get? (2*j+1) = some (.labelTxt (lblPath out l (i+j+1)) l) := by
  intro r
  induction r with
  | zero =>
      intro i g st
      exact ⟨[], rfl, rfl, rfl, rfl, fun j hj => absurd hj (Nat.not_lt_zero j)⟩
  | succ r ih =>
      intro i g st
      obtain ⟨l, hl, st', hrun⟩ := runIteration_ok fonts out textList hne i st
      obtain ⟨ws', h1, h2, h3, h4, h5⟩ := ih (i+1) (g+1) st'
      refine ⟨[.imagePng (imgPath out l (i+1)), .labelTxt (lblPath out l (i+1)) l] ++ ws',
        ?_, ?_, ?_, ?_, ?_⟩
      · rw [runLoop, hev i, hrun]
        dsimp only
        rw [h1]
        dsimp only
        have hg : g + 1 + r = g + (r + 1) := by omega
        rw [hg]
      · simp [h2]; omega
      · simp [List.filter_cons, FileWrite.isImage, h3]
      · simp [List.filter_cons, FileWrite.isLabel, h4]
      · intro j hj
        cases j with
        | zero => exact ⟨l, hl, rfl, rfl⟩
        | succ k =>
            obtain ⟨l', hl', hg1, hg2⟩ := h5 k (by omega)
            refine ⟨l', hl', ?_, ?_⟩
            · rw [show 2 * (k+1) = 2 + 2*k by omega,
                List.get?_append_right (by simp)]
              simpa [show i + (k+1) + 1 = i + 1 + k + 1 by omega] using hg1
            · rw [show 2 * (k+1) + 1 = 2 + (2*k+1) by omega,
                List.get?_append_right (by simp)]
              simpa [show i + (k+1) + 1 = i + 1 + k + 1 by omega] using hg2

lemma runLoop_stop (fonts : List String) (out : String) (textList : List String)
    (events : Nat → IterEvent) (hne : textList ≠ []) :
    ∀ (j r i g : Nat) (st : RandomState), j < r →
      (∀ k, k < j → events (i + k) = .ok) →
      ((∀ e, events (i + j) = .raiseExc e →
        ∃ ws : List FileWrite, ws.length = 2 * j ∧
          runLoop fonts out textList events r i g st = (.uncaught e, ws)) ∧
       (events (i + j) = .interrupt →
        ∃ ws : List FileWrite, ws.length = 2 * j ∧
          runLoop fonts out textList events r i g st = (.completed (g + j), ws))) := by
  intro j
  induction j with
  | zero =>
      intro r i g st hr _
      obtain ⟨r', rfl⟩ : ∃ r', r = r' + 1 := ⟨r - 1, by omega⟩
      constructor
      · intro e hev
        rw [Nat.add_zero] at hev
        refine ⟨[], rfl, ?_⟩
        rw [runLoop, hev, runIteration_raise fonts out textList hne i st e]
      · intro hev
        rw [Nat.add_zero] at hev
        refine ⟨[], rfl, ?_⟩
        rw [runLoop, hev, runIteration_interrupt fonts out textList hne i st]
        rfl
  | succ k ih =>
      intro r i g st hr hok
      obtain ⟨r', rfl⟩ : ∃ r', r = r' + 1 := ⟨r - 1, by omega⟩
      have h0 : events i = .ok := by simpa using hok 0 (Nat.succ_pos k)
      obtain ⟨l, hl, st', hrun⟩ := runIteration_ok fonts out textList hne i st
      have hok' : ∀ k', k' < k → events (i + 1 + k') = .ok := by
        intro k' hk'
        have := hok (k' + 1) (by omega)
        simpa [show i + (k' + 1) = i + 1 + k' by omega] using this
      obtain ⟨ihr, ihi⟩ := ih r' (i+1) (g+1) st' (by omega) hok'
      have hshift : i + (k + 1) = i + 1 + k := by omega
      constructor
      · intro e hev
        rw [hshift] at hev
        obtain ⟨ws, hlen, hrl⟩ := ihr e hev
        refine ⟨[.imagePng (imgPath out l (i+1)),
          .labelTxt (lblPath out l (i+1)) l] ++ ws, by simp [hlen]; omega, ?_⟩
        rw [runLoop, h0, hrun]
        dsimp only
        rw [hrl]
      · intro hev
        rw [hshift] at hev
        obtain ⟨ws, hlen, hrl⟩ := ihi hev
        refine ⟨[.imagePng (imgPath out l (i+1)),
          .labelTxt (lblPath out l (i+1)) l] ++ ws, by simp [hlen]; omega, ?_⟩
        rw [runLoop, h0, hrun]
        dsimp only
        rw [hrl]
        dsimp only
        have hg : g + 1 + k = g + (k + 1) := by omega
        rw [hg]

lemma main_content (args : Args) (env : Env) (st : RandomState) (lines : List String)
    (hdict : env.dictFile = .content lines) :
    main args env st =
      ⟨(runLoop env.fonts args.output (load_text_dictionary lines)
          env.events args.count 0 0 st).1,
       true,
       (runLoop env.fonts args.output (load_text_dictionary lines)
          env.events args.count 0 0 st).2⟩ := by
  unfold main
  rw [hdict]
  dsimp only [load_text_dictionary_from_file]

lemma paths_nodup {out : String} {textList : List String} {N : Nat}
    {ws : List FileWrite} (hlen : ws.length = 2 * N)
    (hidx : ∀ j < N, ∃ l ∈ textList,
      ws.get? (2*j) = some (.imagePng (imgPath out l (j+1))) ∧
      ws.get? (2*j+1) = some (.labelTxt (lblPath out l (j+1)) l)) :
    (ws.map FileWrite.path).Nodup := by
  rw [List.nodup_iff_get?_ne_get?]
  intro p q hpq hq heq
  rw [List.length_map, hlen] at hq
  have hp : p < 2 * N := lt_trans hpq hq
  rw [List.get?_map, List.get?_map] at heq
  obtain ⟨lp, hlp, hip, hlp2⟩ := hidx (p / 2) (by omega)
  obtain ⟨lq, hlq, hiq, hlq2⟩ := hidx (q / 2) (by omega)
  have hpcase : p = 2*(p/2) ∨ p = 2*(p/2)+1 := by omega
  have hqcase : q = 2*(q/2) ∨ q = 2*(q/2)+1 := by omega
  rcases hpcase with hp2 | hp2 <;> rcases hqcase with hq2 | hq2
  · rw [hp2, hip, hq2, hiq] at heq
    simp only [Option.map_some', FileWrite.path, Option.some.injEq] at heq
    have := imgPath_inj_idx heq
    omega
  · rw [hp2, hip, hq2, hlq2] at heq
    simp only [Option.map_some', FileWrite.path, Option.some.injEq] at heq
    exact imgPath_ne_lblPath _ _ _ _ _ _ heq
  · rw [hp2, hlp2, hq2, hiq] at heq
    simp only [Option.map_some', FileWrite.path, Option.some.injEq] at heq
    exact imgPath_ne_lblPath _ _ _ _ _ _ heq.symm
  · rw [hp2, hlp2, hq2, hlq2] at heq
    simp only [Option.map_some', FileWrite.path, Option.some.injEq] at heq
    have := lblPath_inj_idx heq
    omega

/-- C1: a batch of size `N` over a non-empty label list whose every iteration
completes without a fatal error produces exactly `N` image writes and `N`
label writes, on pairwise-distinct paths; 0-based iteration `i` writes the
image `{label}_{i+1:03d}.png` under `output/images` and the label file
`{label}_{i+1:03d}.txt` under `output/labels`, whose content is exactly the
label chosen for that iteration (UTF-8, no trailing newline). -/
theorem c1_batch_output_contract (args : Args) (env : Env) (st : RandomState)
    (lines : List String) (hdict : env.dictFile = .content lines)
    (hne : load_text_dictionary lines ≠ [])
    (hev : ∀ i, env.events i = .ok) :
    (main args env st).exit = .completed args.count ∧
    ((main args env st).files.filter FileWrite.isImage).length = args.count ∧
    ((main args env st).files.filter FileWrite.isLabel).length = args.count ∧
    ((main args env st).files.map FileWrite.path).Nodup ∧
    ∀ i < args.count, ∃ l ∈ load_text_dictionary lines,
      (main args env st).files.get? (2*i) =
        some (.imagePng (imgPath args.output l (i+1))) ∧
      (main args env st).files.get? (2*i+1) =
        some (.labelTxt (lblPath args.output l (i+1)) l) := by
  obtain ⟨ws, hrl, hlen, hfi, hfl, hidx⟩ :=
    runLoop_ok_spec env.fonts args.output (load_text_dictionary lines) env.events hne hev
      args.count 0 0 st
  have hm : main args env st = ⟨.completed (0 + args.count), true, ws⟩ := by
    rw [main_content args env st lines hdict, hrl]
  rw [Nat.zero_add] at hm
  rw [hm]
  refine ⟨rfl, hfi, hfl, ?_, ?_⟩
  · exact paths_nodup hlen (by simpa using hidx)
  · intro i hi
    obtain ⟨l, hl, h1, h2⟩ := hidx i hi
    exact ⟨l, hl, by simpa using h1, by simpa using h2⟩

/-- Witness for C1: a one-iteration run over the dictionary `["AB"]`. -/
theorem c1_witness :
    (main ⟨1, "d.txt", "out"⟩ ⟨.content ["AB"], [], fun _ => .ok⟩
        ⟨fun _ => 0, 0⟩).exit = .completed 1 ∧
    ((main ⟨1, "d.txt", "out"⟩ ⟨.content ["AB"], [], fun _ => .ok⟩
        ⟨fun _ => 0, 0⟩).files.filter FileWrite.isImage).length = 1 := by
  have h := c1_batch_output_contract ⟨1, "d.txt", "out"⟩
    ⟨.content ["AB"], [], fun _ => .ok⟩ ⟨fun _ => 0, 0⟩ ["AB"] rfl (by decide)
    (fun i => rfl)
  exact ⟨h.1, h.2.1⟩

/-- C2: with the first `j` iterations succeeding, an unhandled exception in
iteration `j` aborts the whole batch — exactly the `2*j` files of the
completed iterations exist, nothing is retried or skipped — and the exception
propagates out of `main`; a `KeyboardInterrupt` in iteration `j` instead ends
the loop quietly and the run completes reporting `generated_count = j`. -/
theorem c2_failure_and_interrupt_policy (args : Args) (env : Env) (st : RandomState)
    (lines : List String) (j : Nat)
    (hdict : env.dictFile = .content lines)
    (hne : load_text_dictionary lines ≠ [])
    (hj : j < args.count)
    (hok : ∀ k, k < j → env.events k = .ok) :
    (∀ e, env.events j = .raiseExc e →
      ∃ ws : List FileWrite, ws.length = 2 * j ∧
        main args env st = ⟨.uncaught e, true, ws⟩) ∧
    (env.events j = .interrupt →
      ∃ ws : List FileWrite, ws.length = 2 * j ∧
        main args env st = ⟨.completed j, true, ws⟩) := by
  obtain ⟨hr, hi⟩ := runLoop_stop env.fonts args.output (load_text_dictionary lines)
    env.events hne j args.count 0 0 st hj (by intro k hk; simpa using hok k hk)
  constructor
  · intro e hev
    obtain ⟨ws, hlen, hrl⟩ := hr e (by simpa using hev)
    exact ⟨ws, hlen, by rw [main_content args env st lines hdict, hrl]⟩
  · intro hev
    obtain ⟨ws, hlen, hrl⟩ := hi (by simpa using hev)
    refine ⟨ws, hlen, ?_⟩
    rw [main_content args env st lines hdict, hrl, Nat.zero_add]

/-- Witness for C2: an interrupt in the very first iteration of a batch of
two ends the run with zero images generated and nothing raised. -/
theorem c2_witness :
    main ⟨2, "d.txt", "out"⟩ ⟨.content ["AB"], [], fun _ => .interrupt⟩
        ⟨fun _ => 0, 0⟩ = ⟨.completed 0, true, []⟩ := by
  obtain ⟨-, hint⟩ := c2_failure_and_interrupt_policy ⟨2, "d.txt", "out"⟩
    ⟨.content ["AB"], [], fun _ => .interrupt⟩ ⟨fun _ => 0, 0⟩ ["AB"] 0 rfl
    (by decide) (by norm_num) (fun k hk => absurd hk (Nat.not_lt_zero k))
  obtain ⟨ws, hlen, hm⟩ := hint rfl
  have hws : ws = [] := by
    have h0 : ws.length = 0 := by simpa using hlen
    exact List.length_eq_zero.mp h0
  rw [hws] at hm
  exact hm

/-- C6: a missing dictionary path makes the run abort (the spec's
`ConfigError`, realised as `sys.exit(1)` at main.py lines 127-129) before the
output directories are created, before any iteration work starts, and before
any image or label file is written. -/
theorem c6_missing_dictionary_aborts (args : Args) (env : Env) (st : RandomState)
    (h : env.dictFile = .notFound) :
    main args env st = ⟨.configAbort, false, []⟩ := by
  unfold main
  rw [h]

/-- Witness for C6 at a concrete configuration. -/
theorem c6_witness :
    main ⟨3, "missing.txt", "out"⟩ ⟨.notFound, [], fun _ => .ok⟩ ⟨fun _ => 0, 0⟩ =
      ⟨.configAbort, false, []⟩ :=
  c6_missing_dictionary_aborts _ _ _ rfl

/-- C10: with a loaded label list that is empty and `count ≥ 1`, the batch is
not rejected up front — the output directories are still created — and the
first iteration raises `IndexError` from `random.choice` on the empty list,
terminating the run with zero image files and zero label files written. -/
theorem c10_empty_dictionary_index_error (args : Args) (env : Env) (st : RandomState)
    (lines : List String) (hdict : env.dictFile = .content lines)
    (hempty : load_text_dictionary lines = [])
    (hcount : 1 ≤ args.count) :
    main args env st =
      ⟨.uncaught (.indexError "Cannot choose from an empty sequence"), true, []⟩ := by
  obtain ⟨count, dictPath, output⟩ := args
  cases count with
  | zero => exact absurd hcount (by norm_num)
  | succ c =>
      rw [main_content ⟨c+1, dictPath, output⟩ env st lines hdict, hempty]
      rfl

/-- Witness for C10: a dictionary file holding one blank line. -/
theorem c10_witness :
    main ⟨1, "d.txt", "out"⟩ ⟨.content [""], [], fun _ => .ok⟩ ⟨fun _ => 0, 0⟩ =
      ⟨.uncaught (.indexError "Cannot choose from an empty sequence"), true, []⟩ :=
  c10_empty_dictionary_index_error _ _ _ [""] rfl (by decide) (by norm_num)

/-- The sequence of persisted labels of a run, in iteration order. -/
def chosenLabels (r : RunResult) : List String :=
  r.files.filterMap (fun w => match w with
    | .labelTxt _ c => some c
    | _ => none)

/-- C9: two runs of the batch with the same seed (hence the same variate
stream) and the same dictionary contents — re-running the same batch
configuration, though possibly under a different dictionary file path —
choose the same sequence of labels. -/
theorem c9_label_sequence_deterministic (args1 args2 : Args) (env1 env2 : Env)
    (st1 st2 : RandomState)
    (hseed : st1 = st2)
    (hdict : env1.dictFile = env2.dictFile)
    (hfonts : env1.fonts = env2.fonts)
    (hev : env1.events = env2.events)
    (hcount : args1.count = args2.count)
    (hout : args1.output = args2.output) :
    chosenLabels (main args1 env1 st1) = chosenLabels (main args2 env2 st2) := by
  subst hseed
  obtain ⟨c1, d1, o1⟩ := args1
  obtain ⟨c2, d2, o2⟩ := args2
  obtain ⟨f1, fo1, e1⟩ := env1
  obtain ⟨f2, fo2, e2⟩ := env2
  dsimp at hdict hfonts hev hcount hout
  subst hdict
  subst hfonts
  subst hev
  subst hcount
  subst hout
  cases f1 with
  | notFound => rfl
  | invalidUtf8 => rfl
  | content lines => rfl

/-- Witness for C9: two runs differing only in the dictionary file's path. -/
theorem c9_witness :
    chosenLabels (main ⟨2, "a.txt", "out"⟩ ⟨.content ["AB"], [], fun _ => .ok⟩
        ⟨fun _ => 0, 0⟩) =
    chosenLabels (main ⟨2, "b.txt", "out"⟩ ⟨.content ["AB"], [], fun _ => .ok⟩
        ⟨fun _ => 0, 0⟩) :=
  c9_label_sequence_deterministic _ _ _ _ _ _ rfl rfl rfl rfl rfl rfl

end GasTank
